import Mathlib

/-!
Verification of `src/python/tvm/relay/backend/executor_factory.py`.

The file defines two executor-factory classes, `AOTExecutorFactoryModule` and
`GraphExecutorFactoryModule`, over a common abstract interface.  We give a
shallow embedding: Python runtime values become the inductive `PyVal`,
exceptions become `PyErr`, an object is its ordered attribute list (`PyObj`),
and each `__init__` becomes an `Except`-valued function that also returns the
trace of calls made to external create functions.  External collaborators
(the global function registry, the native array conversion `ndarray.array`,
and the live module's `__getitem__`) are parameters of the embedding, since
they live outside this file.
-/

namespace ExecutorFactory

/-- Dynamically typed Python runtime values, as far as this file needs them:
strings, integers, `tir.PrimFunc` descriptors, runtime `NDArray`s, plain
Python lists of numbers (tensor-like inputs), module/library handles,
dictionaries and heterogeneous lists. -/
inductive PyVal : Type where
  | str : String → PyVal
  | int : Int → PyVal
  | primFunc : Nat → PyVal
  | ndarray : List Int → PyVal
  | pylist : List Int → PyVal
  | module : Nat → PyVal
  | dict : List (String × PyVal) → PyVal
  | plist : List PyVal → PyVal
  | pynone : PyVal

/-- Python exceptions that this layer can surface: `assert` failures,
missing-attribute errors, the registry's lookup failure (`get_global_func`
raises `ValueError` for an unregistered name), and errors propagated from
external runtime callables. -/
inductive PyErr : Type where
  | assertionError : PyErr
  | attributeError : String → PyErr
  | valueError : String → PyErr
  | runtimeError : String → PyErr
  deriving DecidableEq, Repr

/-- An external callable obtained from the global function registry: it takes
a positional argument list and either returns a value or raises. -/
def ForeignFn : Type := List PyVal → Except PyErr PyVal

/-- A record of one invocation of an external create function: the registry
name it was resolved under and the positional arguments it received. -/
structure ForeignCall : Type where
  fname : String
  args : List PyVal

/-- A Python object, modelled as its ordered list of instance attributes. -/
structure PyObj : Type where
  attrs : List (String × PyVal)

/-- Attribute access `o.name`: first assignment wins on lookup; a name that
was never assigned raises `AttributeError`. -/
def PyObj.getattr (o : PyObj) (name : String) : Except PyErr PyVal :=
  match o.attrs.lookup name with
  | some v => Except.ok v
  | Option.none => Except.error (PyErr.attributeError name)

/-- `isinstance(x, string_types)` — `string_types` is `(str,)`. -/
def isString : PyVal → Bool
  | PyVal.str _ => true
  | _ => false

/-- `isinstance(x, tir.PrimFunc)`. -/
def isPrimFunc : PyVal → Bool
  | PyVal.primFunc _ => true
  | _ => false

/-- Modelled from the spec: `ndarray.array` lives in `tvm.runtime.ndarray`,
outside this file; the spec describes it only as the "native array
conversion" turning an arbitrary tensor-like value into the runtime's
canonical array representation.  We model it as mapping tensor-like values to
`NDArray`s.  The theorems below are parameterised over an arbitrary
conversion function; this model is used to instantiate witnesses. -/
def ndarrayArrayModel : PyVal → PyVal
  | PyVal.pylist d => PyVal.ndarray d
  | PyVal.ndarray d => PyVal.ndarray d
  | _ => PyVal.ndarray []

/-- The parameter-flattening loop shared by both `__init__` bodies:
`for k, v in params.items(): args.append(k); args.append(ndarray.array(v))`.
`conv` stands for the external `ndarray.array`. -/
def flattenParams (conv : PyVal → PyVal) : List (String × PyVal) → List PyVal
  | [] => []
  | (k, v) :: rest => PyVal.str k :: conv v :: flattenParams conv rest

/-- The name under which the graph variant resolves its external create
function: `"tvm.graph_executor_factory.create"`. -/
def graphCreateName : String := "tvm.graph_executor_factory.create"

/-- The attributes assigned by `AOTExecutorFactoryModule.__init__`, in
source order: `ir_mod`, `target`, `runner_func`, `lib`, `libmod_name`,
`params`, `iter_cnt`. -/
def mkAOTObj (ir_mod target runner_function libmod libmod_name : PyVal)
    (params : List (String × PyVal)) : PyObj :=
  ⟨[("ir_mod", ir_mod), ("target", target), ("runner_func", runner_function),
    ("lib", libmod), ("libmod_name", libmod_name),
    ("params", PyVal.dict params), ("iter_cnt", PyVal.int 0)]⟩

/-- `AOTExecutorFactoryModule.__init__`: asserts the runner is a
`tir.PrimFunc`, builds the flattened `args` list (a local that the body
never uses again), then assigns the instance attributes.  No external
create function is invoked, so the returned trace is empty. -/
def aotInit (conv : PyVal → PyVal)
    (ir_mod target runner_function libmod libmod_name : PyVal)
    (params : List (String × PyVal)) :
    Except PyErr (PyObj × List ForeignCall) :=
  if isPrimFunc runner_function then
    let _args := flattenParams conv params
    Except.ok (mkAOTObj ir_mod target runner_function libmod libmod_name params, [])
  else Except.error PyErr.assertionError

/-- The attributes assigned by `GraphExecutorFactoryModule.__init__`, in
source order: `ir_mod`, `target`, `module`, `graph`, `lib`, `libmod_name`,
`params`, `iter_cnt`, where `module` holds the live module returned by the
external create function. -/
def mkGraphObj (ir_mod target liveModule graph_str libmod libmod_name : PyVal)
    (params : List (String × PyVal)) : PyObj :=
  ⟨[("ir_mod", ir_mod), ("target", target), ("module", liveModule),
    ("graph", graph_str), ("lib", libmod), ("libmod_name", libmod_name),
    ("params", PyVal.dict params), ("iter_cnt", PyVal.int 0)]⟩

/-- `GraphExecutorFactoryModule.__init__`: asserts the graph description is
a string, resolves `fcreate` from the global registry (raising if the name
is unregistered), flattens the parameters, and calls
`fcreate(graph_str, libmod, libmod_name, *args)`; on success the resulting
live module and the construction inputs become the instance attributes.
`registry` stands for the external global function registry and `conv` for
`ndarray.array`. -/
def graphInit (registry : String → Option ForeignFn) (conv : PyVal → PyVal)
    (ir_mod target graph_str libmod libmod_name : PyVal)
    (params : List (String × PyVal)) :
    Except PyErr (PyObj × List ForeignCall) :=
  if isString graph_str then
    match registry graphCreateName with
    | Option.none =>
        Except.error (PyErr.valueError "Cannot find global function tvm.graph_executor_factory.create")
    | some fcreate =>
        match fcreate (graph_str :: libmod :: libmod_name :: flattenParams conv params) with
        | Except.error e => Except.error e
        | Except.ok liveModule =>
            Except.ok
              (mkGraphObj ir_mod target liveModule graph_str libmod libmod_name params,
               [⟨graphCreateName,
                 graph_str :: libmod :: libmod_name :: flattenParams conv params⟩])
  else Except.error PyErr.assertionError

/-- `get_params` (both variants): `return self.params`. -/
def get_params (o : PyObj) : Except PyErr PyVal := o.getattr "params"

/-- `AOTExecutorFactoryModule.get_internal_repr`: `return self.runner_func`. -/
def aot_get_internal_repr (o : PyObj) : Except PyErr PyVal := o.getattr "runner_func"

/-- `get_lib` (both variants): `return self.lib`. -/
def get_lib (o : PyObj) : Except PyErr PyVal := o.getattr "lib"

/-- `GraphExecutorFactoryModule.save_executor_config`: `return self.graph`. -/
def save_executor_config (o : PyObj) : Except PyErr PyVal := o.getattr "graph"

/-- `GraphExecutorFactoryModule.get_graph_json`: `return self.internal_repr`
— note the body reads an attribute named `internal_repr`, which no method of
the class ever assigns. -/
def get_graph_json (o : PyObj) : Except PyErr PyVal := o.getattr "internal_repr"

/-- `GraphExecutorFactoryModule.get_internal_repr`: `return self.graph`. -/
def graph_get_internal_repr (o : PyObj) : Except PyErr PyVal := o.getattr "graph"

/-- `GraphExecutorFactoryModule.__getitem__`:
`return self.module.__getitem__(item)`.  `moduleGetItem` stands for the live
module's own (external) indexed-access behaviour. -/
def graph_getitem (moduleGetItem : PyVal → PyVal → Except PyErr PyVal)
    (o : PyObj) (item : PyVal) : Except PyErr PyVal :=
  match o.getattr "module" with
  | Except.ok m => moduleGetItem m item
  | Except.error e => Except.error e

/-! Concrete sample inputs, used to instantiate witnesses. -/

/-- A sample registry holding only the graph create function; the sample
create function ignores its arguments and returns live module handle 7. -/
def sampleRegistry : String → Option ForeignFn :=
  fun n => if n = graphCreateName then some (fun _ => Except.ok (PyVal.module 7)) else Option.none

/-- A sample parameter mapping `{"w": [1.0, 2.0]}` (the numeric payload is
carried opaquely; we write it as the list `[1, 2]`). -/
def sampleParams : List (String × PyVal) := [("w", PyVal.pylist [1, 2])]

/-! Helper lemmas: inversion of the two constructors. -/

/-- Inversion for a successful `aotInit`: the runner passed the `PrimFunc`
check, the object carries exactly the assigned attributes, and no external
call was made. -/
theorem aotInit_ok_elim (conv : PyVal → PyVal)
    (ir_mod target runner_function libmod libmod_name : PyVal)
    (params : List (String × PyVal)) (o : PyObj) (tr : List ForeignCall)
    (h : aotInit conv ir_mod target runner_function libmod libmod_name params =
      Except.ok (o, tr)) :
    isPrimFunc runner_function = true ∧
    o = mkAOTObj ir_mod target runner_function libmod libmod_name params ∧
    tr = [] := by
  by_cases hp : isPrimFunc runner_function = true
  · rw [aotInit, if_pos hp] at h
    simp only [Except.ok.injEq, Prod.mk.injEq] at h
    exact ⟨hp, h.1.symm, h.2.symm⟩
  · rw [aotInit, if_neg hp] at h
    exact absurd h (by simp)

/-- Inversion for a successful `graphInit`: the graph description passed the
string check, the create function was resolved and returned a live module,
the object carries exactly the assigned attributes, and the trace is the
single create call. -/
theorem graphInit_ok_elim (registry : String → Option ForeignFn) (conv : PyVal → PyVal)
    (ir_mod target graph_str libmod libmod_name : PyVal)
    (params : List (String × PyVal)) (o : PyObj) (tr : List ForeignCall)
    (h : graphInit registry conv ir_mod target graph_str libmod libmod_name params =
      Except.ok (o, tr)) :
    isString graph_str = true ∧
    ∃ fcreate liveModule,
      registry graphCreateName = some fcreate ∧
      fcreate (graph_str :: libmod :: libmod_name :: flattenParams conv params) =
        Except.ok liveModule ∧
      o = mkGraphObj ir_mod target liveModule graph_str libmod libmod_name params ∧
      tr = [⟨graphCreateName,
             graph_str :: libmod :: libmod_name :: flattenParams conv params⟩] := by
  by_cases hs : isString graph_str = true
  · rw [graphInit, if_pos hs] at h
    refine ⟨hs, ?_⟩
    cases hreg : registry graphCreateName with
    | none => rw [hreg] at h; exact absurd h (by simp)
    | some fcreate =>
      rw [hreg] at h
      cases hcall :
          fcreate (graph_str :: libmod :: libmod_name :: flattenParams conv params) with
      | error e => simp only [hcall] at h; exact absurd h (by simp)
      | ok liveModule =>
        simp only [hcall, Except.ok.injEq, Prod.mk.injEq] at h
        exact ⟨fcreate, liveModule, rfl, hcall, h.1.symm, h.2.symm⟩
  · rw [graphInit, if_neg hs] at h
    exact absurd h (by simp)

/-! Claim theorems. -/

/-- C1: for every parameter mapping P, `get_params()` on a factory constructed
with P — ahead-of-time or graph variant — returns exactly the mapping P
supplied at construction, same keys and same values. -/
theorem C1_get_params_returns_construction_params
    (registry : String → Option ForeignFn) (conv : PyVal → PyVal)
    (ir_mod target runner_function graph_str libmod libmod_name : PyVal)
    (params : List (String × PyVal))
    (oA oG : PyObj) (trA trG : List ForeignCall)
    (hA : aotInit conv ir_mod target runner_function libmod libmod_name params =
      Except.ok (oA, trA))
    (hG : graphInit registry conv ir_mod target graph_str libmod libmod_name params =
      Except.ok (oG, trG)) :
    get_params oA = Except.ok (PyVal.dict params) ∧
    get_params oG = Except.ok (PyVal.dict params) := by
  obtain ⟨-, hoA, -⟩ :=
    aotInit_ok_elim conv ir_mod target runner_function libmod libmod_name params oA trA hA
  obtain ⟨-, fcreate, liveModule, -, -, hoG, -⟩ :=
    graphInit_ok_elim registry conv ir_mod target graph_str libmod libmod_name params oG trG hG
  subst hoA
  subst hoG
  exact ⟨rfl, rfl⟩

/-- Witness for C1 at concrete inputs. -/
theorem C1_witness :
    get_params (mkAOTObj (PyVal.str "m") (PyVal.str "t") (PyVal.primFunc 0)
        (PyVal.module 1) (PyVal.str "lib0") sampleParams) =
      Except.ok (PyVal.dict sampleParams) ∧
    get_params (mkGraphObj (PyVal.str "m") (PyVal.str "t") (PyVal.module 7)
        (PyVal.str "g") (PyVal.module 1) (PyVal.str "lib0") sampleParams) =
      Except.ok (PyVal.dict sampleParams) :=
  C1_get_params_returns_construction_params sampleRegistry ndarrayArrayModel
    (PyVal.str "m") (PyVal.str "t") (PyVal.primFunc 0) (PyVal.str "g")
    (PyVal.module 1) (PyVal.str "lib0") sampleParams _ _ _ _ rfl rfl

/-- C2: for every graph factory successfully constructed with graph
description G, both `get_internal_repr()` and `save_executor_config()`
return G unchanged. -/
theorem C2_graph_description_roundtrip
    (registry : String → Option ForeignFn) (conv : PyVal → PyVal)
    (ir_mod target graph_str libmod libmod_name : PyVal)
    (params : List (String × PyVal)) (o : PyObj) (tr : List ForeignCall)
    (h : graphInit registry conv ir_mod target graph_str libmod libmod_name params =
      Except.ok (o, tr)) :
    graph_get_internal_repr o = Except.ok graph_str ∧
    save_executor_config o = Except.ok graph_str := by
  obtain ⟨-, fcreate, liveModule, -, -, ho, -⟩ :=
    graphInit_ok_elim registry conv ir_mod target graph_str libmod libmod_name params o tr h
  subst ho
  exact ⟨rfl, rfl⟩

/-- Witness for C2 at concrete inputs. -/
theorem C2_witness :
    graph_get_internal_repr (mkGraphObj (PyVal.str "m") (PyVal.str "t") (PyVal.module 7)
        (PyVal.str "g") (PyVal.module 1) (PyVal.str "lib0") sampleParams) =
      Except.ok (PyVal.str "g") ∧
    save_executor_config (mkGraphObj (PyVal.str "m") (PyVal.str "t") (PyVal.module 7)
        (PyVal.str "g") (PyVal.module 1) (PyVal.str "lib0") sampleParams) =
      Except.ok (PyVal.str "g") :=
  C2_graph_description_roundtrip sampleRegistry ndarrayArrayModel
    (PyVal.str "m") (PyVal.str "t") (PyVal.str "g") (PyVal.module 1) (PyVal.str "lib0")
    sampleParams _ _ rfl

/-- C3: the claim says `get_graph_json()` returns the graph description G;
on the code as written it instead raises `AttributeError` on every
successfully constructed graph factory, because the method body returns
`self.internal_repr` and no code path ever assigns an attribute named
`internal_repr` (the graph description is stored under `graph`).  This is
the latent bug the specification flags in its Design Notes. -/
theorem C3_get_graph_json_raises_attribute_error
    (registry : String → Option ForeignFn) (conv : PyVal → PyVal)
    (ir_mod target graph_str libmod libmod_name : PyVal)
    (params : List (String × PyVal)) (o : PyObj) (tr : List ForeignCall)
    (h : graphInit registry conv ir_mod target graph_str libmod libmod_name params =
      Except.ok (o, tr)) :
    get_graph_json o = Except.error (PyErr.attributeError "internal_repr") := by
  obtain ⟨-, fcreate, liveModule, -, -, ho, -⟩ :=
    graphInit_ok_elim registry conv ir_mod target graph_str libmod libmod_name params o tr h
  subst ho
  rfl

/-- Witness for C3: the failing input, concretely. -/
theorem C3_witness :
    get_graph_json (mkGraphObj (PyVal.str "m") (PyVal.str "t") (PyVal.module 7)
        (PyVal.str "g") (PyVal.module 1) (PyVal.str "lib0") sampleParams) =
      Except.error (PyErr.attributeError "internal_repr") :=
  C3_get_graph_json_raises_attribute_error sampleRegistry ndarrayArrayModel
    (PyVal.str "m") (PyVal.str "t") (PyVal.str "g") (PyVal.module 1) (PyVal.str "lib0")
    sampleParams _ _ rfl

/-- C4: for every combination of the other construction arguments,
constructing the ahead-of-time factory with a runner that is not a
`tir.PrimFunc` fails with the assertion error and produces no object. -/
theorem C4_aot_rejects_non_primfunc_runner
    (conv : PyVal → PyVal)
    (ir_mod target runner_function libmod libmod_name : PyVal)
    (params : List (String × PyVal))
    (h : isPrimFunc runner_function = false) :
    aotInit conv ir_mod target runner_function libmod libmod_name params =
      Except.error PyErr.assertionError := by
  rw [aotInit, if_neg (by simp [h])]

/-- Witness for C4: a string is not a `tir.PrimFunc`. -/
theorem C4_witness :
    isPrimFunc (PyVal.str "not_a_prim_func") = false ∧
    aotInit ndarrayArrayModel (PyVal.str "m") (PyVal.str "t")
        (PyVal.str "not_a_prim_func") (PyVal.module 1) (PyVal.str "lib0") sampleParams =
      Except.error PyErr.assertionError :=
  ⟨rfl, C4_aot_rejects_non_primfunc_runner ndarrayArrayModel (PyVal.str "m") (PyVal.str "t")
    (PyVal.str "not_a_prim_func") (PyVal.module 1) (PyVal.str "lib0") sampleParams rfl⟩

/-- C5: for every combination of the other construction arguments (and any
state of the global registry), constructing the graph factory with a
non-string graph description fails with the assertion error and produces no
object. -/
theorem C5_graph_rejects_non_string_graph
    (registry : String → Option ForeignFn) (conv : PyVal → PyVal)
    (ir_mod target graph_str libmod libmod_name : PyVal)
    (params : List (String × PyVal))
    (h : isString graph_str = false) :
    graphInit registry conv ir_mod target graph_str libmod libmod_name params =
      Except.error PyErr.assertionError := by
  rw [graphInit, if_neg (by simp [h])]

/-- Witness for C5: an integer is not a string. -/
theorem C5_witness :
    isString (PyVal.int 3) = false ∧
    graphInit sampleRegistry ndarrayArrayModel (PyVal.str "m") (PyVal.str "t")
        (PyVal.int 3) (PyVal.module 1) (PyVal.str "lib0") sampleParams =
      Except.error PyErr.assertionError :=
  ⟨rfl, C5_graph_rejects_non_string_graph sampleRegistry ndarrayArrayModel
    (PyVal.str "m") (PyVal.str "t") (PyVal.int 3) (PyVal.module 1) (PyVal.str "lib0")
    sampleParams rfl⟩

/-- C6: on every successful graph-factory construction the external create
function resolved under `"tvm.graph_executor_factory.create"` is invoked
exactly once (the trace is a one-element list), with positional arguments
(graph description, library, module name) followed by the parameters
flattened into the alternating name/converted-value sequence. -/
theorem C6_create_called_once_with_flattened_params
    (registry : String → Option ForeignFn) (conv : PyVal → PyVal)
    (ir_mod target graph_str libmod libmod_name : PyVal)
    (params : List (String × PyVal)) (o : PyObj) (tr : List ForeignCall)
    (h : graphInit registry conv ir_mod target graph_str libmod libmod_name params =
      Except.ok (o, tr)) :
    tr = [⟨graphCreateName,
           graph_str :: libmod :: libmod_name :: flattenParams conv params⟩] := by
  obtain ⟨-, fcreate, liveModule, -, -, -, htr⟩ :=
    graphInit_ok_elim registry conv ir_mod target graph_str libmod libmod_name params o tr h
  exact htr

/-- Witness for C6, at the spec's example: graph `'{"nodes":[]}'`, params
`{"w": [1.0, 2.0]}`, module name `"lib0"`; the one call receives
`('{"nodes":[]}', <lib>, "lib0", "w", <array [1.0, 2.0]>)`. -/
theorem C6_witness :
    ∃ o, graphInit sampleRegistry ndarrayArrayModel (PyVal.str "m") (PyVal.str "t")
        (PyVal.str "\x7b\"nodes\":[]\x7d") (PyVal.module 1) (PyVal.str "lib0") sampleParams =
      Except.ok (o,
        [⟨graphCreateName,
          [PyVal.str "\x7b\"nodes\":[]\x7d", PyVal.module 1, PyVal.str "lib0",
           PyVal.str "w", PyVal.ndarray [1, 2]]⟩]) :=
  ⟨_, by
    have htr := C6_create_called_once_with_flattened_params sampleRegistry ndarrayArrayModel
      (PyVal.str "m") (PyVal.str "t") (PyVal.str "\x7b\"nodes\":[]\x7d") (PyVal.module 1)
      (PyVal.str "lib0") sampleParams _ _ rfl
    exact rfl⟩

/-- C7, counterexample to "this flattened list is retained by the factory":
at a concrete successful AOT construction, no attribute of the constructed
object holds the flattened alternating list — the `args` list built in
`AOTExecutorFactoryModule.__init__` is a local that is never stored on
`self` (the loop result is dead code in this variant). -/
theorem C7_counterexample :
    ∃ o tr,
      aotInit ndarrayArrayModel (PyVal.str "m") (PyVal.str "t") (PyVal.primFunc 0)
          (PyVal.module 1) (PyVal.str "lib0") sampleParams = Except.ok (o, tr) ∧
      ∀ a ∈ o.attrs,
        a.2 ≠ PyVal.plist (flattenParams ndarrayArrayModel sampleParams) := by
  refine ⟨mkAOTObj (PyVal.str "m") (PyVal.str "t") (PyVal.primFunc 0)
    (PyVal.module 1) (PyVal.str "lib0") sampleParams, [], rfl, ?_⟩
  intro a ha
  simp only [mkAOTObj, sampleParams] at ha
  fin_cases ha <;> simp [flattenParams, ndarrayArrayModel, sampleParams]

/-- C7 (amended): on every successful AOT construction the parameter mapping
is flattened into the alternating (name, converted value) list only as a
local temporary that is then discarded — the factory retains exactly the
attributes `ir_mod`, `target`, `runner_func`, `lib`, `libmod_name`,
`params`, `iter_cnt` (the flattened list is not among them) and makes no
call to the external function registry or any external create function (the
trace of external calls is empty). -/
theorem C7_amended_aot_flattening_is_local_and_untransmitted
    (conv : PyVal → PyVal)
    (ir_mod target runner_function libmod libmod_name : PyVal)
    (params : List (String × PyVal)) (o : PyObj) (tr : List ForeignCall)
    (h : aotInit conv ir_mod target runner_function libmod libmod_name params =
      Except.ok (o, tr)) :
    tr = [] ∧
    o.attrs = [("ir_mod", ir_mod), ("target", target), ("runner_func", runner_function),
      ("lib", libmod), ("libmod_name", libmod_name),
      ("params", PyVal.dict params), ("iter_cnt", PyVal.int 0)] := by
  obtain ⟨-, ho, htr⟩ :=
    aotInit_ok_elim conv ir_mod target runner_function libmod libmod_name params o tr h
  subst ho
  exact ⟨htr, rfl⟩

/-- Witness for the amended C7 at concrete inputs. -/
theorem C7_amended_witness :
    ([] : List ForeignCall) = [] ∧
    (mkAOTObj (PyVal.str "m") (PyVal.str "t") (PyVal.primFunc 0) (PyVal.module 1)
        (PyVal.str "lib0") sampleParams).attrs =
      [("ir_mod", PyVal.str "m"), ("target", PyVal.str "t"),
       ("runner_func", PyVal.primFunc 0), ("lib", PyVal.module 1),
       ("libmod_name", PyVal.str "lib0"),
       ("params", PyVal.dict sampleParams), ("iter_cnt", PyVal.int 0)] :=
  C7_amended_aot_flattening_is_local_and_untransmitted ndarrayArrayModel
    (PyVal.str "m") (PyVal.str "t") (PyVal.primFunc 0) (PyVal.module 1)
    (PyVal.str "lib0") sampleParams _ _ rfl

/-- C8: construction is single-shot and atomic for both variants and all
inputs: it either raises an error (no object is returned) or returns an
object carrying the full attribute set assigned by the constructor. -/
theorem C8_construction_is_atomic
    (registry : String → Option ForeignFn) (conv : PyVal → PyVal)
    (ir_mod target runner_function graph_str libmod libmod_name : PyVal)
    (params : List (String × PyVal)) :
    ((∃ e, aotInit conv ir_mod target runner_function libmod libmod_name params =
        Except.error e) ∨
      (∃ tr, aotInit conv ir_mod target runner_function libmod libmod_name params =
        Except.ok (mkAOTObj ir_mod target runner_function libmod libmod_name params, tr))) ∧
    ((∃ e, graphInit registry conv ir_mod target graph_str libmod libmod_name params =
        Except.error e) ∨
      (∃ liveModule tr,
        graphInit registry conv ir_mod target graph_str libmod libmod_name params =
          Except.ok (mkGraphObj ir_mod target liveModule graph_str libmod libmod_name params,
            tr))) := by
  constructor
  · by_cases hp : isPrimFunc runner_function = true
    · exact Or.inr ⟨[], by rw [aotInit, if_pos hp]⟩
    · exact Or.inl ⟨PyErr.assertionError, by rw [aotInit, if_neg hp]⟩
  · by_cases hs : isString graph_str = true
    · cases hreg : registry graphCreateName with
      | none =>
        refine Or.inl
          ⟨PyErr.valueError "Cannot find global function tvm.graph_executor_factory.create", ?_⟩
        rw [graphInit, if_pos hs, hreg]
      | some fcreate =>
        cases hcall :
            fcreate (graph_str :: libmod :: libmod_name :: flattenParams conv params) with
        | error e =>
          refine Or.inl ⟨e, ?_⟩
          rw [graphInit, if_pos hs, hreg]
          simp only [hcall]
        | ok liveModule =>
          refine Or.inr ⟨liveModule,
            [⟨graphCreateName,
              graph_str :: libmod :: libmod_name :: flattenParams conv params⟩], ?_⟩
          rw [graphInit, if_pos hs, hreg]
          simp only [hcall]
    · exact Or.inl ⟨PyErr.assertionError, by rw [graphInit, if_neg hs]⟩

/-- C9: indexed access on a graph factory forwards unchanged to the live
module obtained from the external create function: for every key, the
factory's `__getitem__` result (value or error) is exactly the live module's
own `__getitem__` result for that key. -/
theorem C9_getitem_forwards_to_live_module
    (moduleGetItem : PyVal → PyVal → Except PyErr PyVal)
    (registry : String → Option ForeignFn) (conv : PyVal → PyVal)
    (ir_mod target graph_str libmod libmod_name : PyVal)
    (params : List (String × PyVal)) (o : PyObj) (tr : List ForeignCall)
    (item : PyVal)
    (h : graphInit registry conv ir_mod target graph_str libmod libmod_name params =
      Except.ok (o, tr)) :
    ∃ fcreate liveModule,
      registry graphCreateName = some fcreate ∧
      fcreate (graph_str :: libmod :: libmod_name :: flattenParams conv params) =
        Except.ok liveModule ∧
      o.getattr "module" = Except.ok liveModule ∧
      graph_getitem moduleGetItem o item = moduleGetItem liveModule item := by
  obtain ⟨-, fcreate, liveModule, hreg, hcall, ho, -⟩ :=
    graphInit_ok_elim registry conv ir_mod target graph_str libmod libmod_name params o tr h
  subst ho
  exact ⟨fcreate, liveModule, hreg, hcall, rfl, rfl⟩

/-- Witness for C9 at concrete inputs: both a lookup the module answers and
one where it raises are forwarded unchanged. -/
theorem C9_witness :
    ∃ fcreate liveModule,
      sampleRegistry graphCreateName = some fcreate ∧
      fcreate (PyVal.str "g" :: PyVal.module 1 :: PyVal.str "lib0" ::
          flattenParams ndarrayArrayModel sampleParams) = Except.ok liveModule ∧
      (mkGraphObj (PyVal.str "m") (PyVal.str "t") (PyVal.module 7) (PyVal.str "g")
          (PyVal.module 1) (PyVal.str "lib0") sampleParams).getattr "module" =
        Except.ok liveModule ∧
      graph_getitem (fun m i => Except.ok (PyVal.plist [m, i]))
          (mkGraphObj (PyVal.str "m") (PyVal.str "t") (PyVal.module 7) (PyVal.str "g")
            (PyVal.module 1) (PyVal.str "lib0") sampleParams) (PyVal.str "run") =
        (fun m i => Except.ok (PyVal.plist [m, i])) liveModule (PyVal.str "run") :=
  C9_getitem_forwards_to_live_module (fun m i => Except.ok (PyVal.plist [m, i]))
    sampleRegistry ndarrayArrayModel (PyVal.str "m") (PyVal.str "t") (PyVal.str "g")
    (PyVal.module 1) (PyVal.str "lib0") sampleParams _ _ (PyVal.str "run") rfl

/-- C10: the native-array conversion applied while flattening does not leak
into `get_params()`: for any two conversion functions the constructed
factories answer `get_params()` identically, and the answer is the original
parameter mapping with its original value objects, in both variants. -/
theorem C10_get_params_unaffected_by_conversion
    (registry : String → Option ForeignFn) (conv1 conv2 : PyVal → PyVal)
    (ir_mod target runner_function graph_str libmod libmod_name : PyVal)
    (params : List (String × PyVal))
    (oA1 oA2 oG1 oG2 : PyObj)
    (trA1 trA2 trG1 trG2 : List ForeignCall)
    (hA1 : aotInit conv1 ir_mod target runner_function libmod libmod_name params =
      Except.ok (oA1, trA1))
    (hA2 : aotInit conv2 ir_mod target runner_function libmod libmod_name params =
      Except.ok (oA2, trA2))
    (hG1 : graphInit registry conv1 ir_mod target graph_str libmod libmod_name params =
      Except.ok (oG1, trG1))
    (hG2 : graphInit registry conv2 ir_mod target graph_str libmod libmod_name params =
      Except.ok (oG2, trG2)) :
    get_params oA1 = Except.ok (PyVal.dict params) ∧
    get_params oA1 = get_params oA2 ∧
    get_params oG1 = Except.ok (PyVal.dict params) ∧
    get_params oG1 = get_params oG2 := by
  obtain ⟨-, hoA1, -⟩ :=
    aotInit_ok_elim conv1 ir_mod target runner_function libmod libmod_name params oA1 trA1 hA1
  obtain ⟨-, hoA2, -⟩ :=
    aotInit_ok_elim conv2 ir_mod target runner_function libmod libmod_name params oA2 trA2 hA2
  obtain ⟨-, f1, m1, -, -, hoG1, -⟩ :=
    graphInit_ok_elim registry conv1 ir_mod target graph_str libmod libmod_name params oG1 trG1 hG1
  obtain ⟨-, f2, m2, -, -, hoG2, -⟩ :=
    graphInit_ok_elim registry conv2 ir_mod target graph_str libmod libmod_name params oG2 trG2 hG2
  subst hoA1; subst hoA2; subst hoG1; subst hoG2
  exact ⟨rfl, rfl, rfl, rfl⟩

/-- Witness for C10 at concrete inputs, with two different conversion
functions (the model conversion and the identity). -/
theorem C10_witness :
    get_params (mkAOTObj (PyVal.str "m") (PyVal.str "t") (PyVal.primFunc 0)
        (PyVal.module 1) (PyVal.str "lib0") sampleParams) =
      Except.ok (PyVal.dict sampleParams) ∧
    get_params (mkAOTObj (PyVal.str "m") (PyVal.str "t") (PyVal.primFunc 0)
        (PyVal.module 1) (PyVal.str "lib0") sampleParams) =
      get_params (mkAOTObj (PyVal.str "m") (PyVal.str "t") (PyVal.primFunc 0)
        (PyVal.module 1) (PyVal.str "lib0") sampleParams) ∧
    get_params (mkGraphObj (PyVal.str "m") (PyVal.str "t") (PyVal.module 7)
        (PyVal.str "g") (PyVal.module 1) (PyVal.str "lib0") sampleParams) =
      Except.ok (PyVal.dict sampleParams) ∧
    get_params (mkGraphObj (PyVal.str "m") (PyVal.str "t") (PyVal.module 7)
        (PyVal.str "g") (PyVal.module 1) (PyVal.str "lib0") sampleParams) =
      get_params (mkGraphObj (PyVal.str "m") (PyVal.str "t") (PyVal.module 7)
        (PyVal.str "g") (PyVal.module 1) (PyVal.str "lib0") sampleParams) :=
  C10_get_params_unaffected_by_conversion sampleRegistry ndarrayArrayModel
    (fun v => v) (PyVal.str "m") (PyVal.str "t") (PyVal.primFunc 0) (PyVal.str "g")
    (PyVal.module 1) (PyVal.str "lib0") sampleParams _ _ _ _ _ _ _ _ rfl rfl rfl rfl

end ExecutorFactory
